import Mathlib

/-
Verification of the command-interpretation core of a motion-control firmware
(GCodes.h).  The development shallowly embeds the data model and the
operations of the header: the inline member functions are translated
directly from the source; operations whose bodies live outside the header
are modelled from the specification and are marked as such in their doc
comments.  Machine text is modelled as lists of byte values (Nat), C `int`
fields as Int, and C `float` fields as Rat (only copy and compare semantics
of these values are ever used by the properties below).
-/

/-! ## GCodeBuffer: the per-channel command buffer

Translated from the `GCodeBuffer` class of GCodes.h.  `GCODE_LENGTH` bounds
the text buffer; the lifecycle enum `State { idle, executing, paused }` and
the inline bodies of `SetFinished`, `Pause` and `Resume` are taken verbatim
from the header. -/

def GCODE_LENGTH : Nat := 100

def STACK : Nat := 5

/-- The lifecycle enum `State { idle, executing, paused }` of GCodeBuffer. -/
inductive BufState
  | idle
  | executing
  | paused
deriving DecidableEq, Repr

/-- State of one `GCodeBuffer` object: the character array `gcodeBuffer`
(bytes, 0 is the C string terminator), the write index `gcodePointer`, the
read cursor `readPointer`, the comment flag, the per-channel
checksum-required flag, the lifecycle `state` and the tool number offset.
Pointer-valued members (`platform`, `identity`, `writingFileDirectory`) are
irrelevant to the verified properties and are represented by an identity
tag and an optional directory tag. -/
structure GCodeBuffer where
  gcodeBuffer : List Nat
  identity : Nat
  gcodePointer : Int
  readPointer : Int
  inComment : Bool
  checksumRequired : Bool
  state : BufState
  writingFileDirectory : Option Nat
  toolNumberAdjust : Int
deriving DecidableEq, Repr

namespace GCodeBuffer

/-- The stored command text: the bytes of `gcodeBuffer` before the first
C string terminator. -/
def commandText (gb : GCodeBuffer) : List Nat :=
  gb.gcodeBuffer.takeWhile (fun b => b ≠ 0)

/-- Translated from GCodes.h: `Active()` returns `state == executing`. -/
def Active (gb : GCodeBuffer) : Bool :=
  gb.state = BufState.executing

/-- Translated from GCodes.h: `SetFinished(bool f)`.  When `f` is true the
state becomes `idle` and `gcodeBuffer[0]` is set to 0.  The `else` branch of
the source is `f = executing;`, an assignment to the local parameter `f`
only, so no member of the object changes. -/
def SetFinished (gb : GCodeBuffer) (f : Bool) : GCodeBuffer :=
  if f then
    { gb with state := BufState.idle, gcodeBuffer := gb.gcodeBuffer.set 0 0 }
  else
    gb

/-- Translated from GCodes.h: `Pause()` sets the state to `paused` when it
is `executing`, and does nothing otherwise. -/
def Pause (gb : GCodeBuffer) : GCodeBuffer :=
  if gb.state = BufState.executing then { gb with state := BufState.paused } else gb

/-- Translated from GCodes.h: `Resume()` sets the state to `executing` when
it is `paused`, and does nothing otherwise. -/
def Resume (gb : GCodeBuffer) : GCodeBuffer :=
  if gb.state = BufState.paused then { gb with state := BufState.executing } else gb

/-- Translated from GCodes.h: `SetCommsProperties(uint32_t arg)` sets the
checksum-required flag to bit 0 of the argument. -/
def SetCommsProperties (gb : GCodeBuffer) (arg : Nat) : GCodeBuffer :=
  { gb with checksumRequired := arg % 2 = 1 }

end GCodeBuffer

/-! ### Claims C6, C7, C9, C10: lifecycle transitions of the buffer -/

/-- Claim C6: for every CommandBuffer in the Executing state, `SetFinished`
with argument true transitions it to Idle and clears the stored command
text, so the buffer text is empty for the next line. -/
theorem setFinished_true_idles_and_clears (gb : GCodeBuffer)
    (_h : gb.state = BufState.executing) :
    (gb.SetFinished true).state = BufState.idle ∧
    (gb.SetFinished true).commandText = [] := by
  refine ⟨by simp [GCodeBuffer.SetFinished], ?_⟩
  simp only [GCodeBuffer.SetFinished, if_pos]
  cases hb : gb.gcodeBuffer with
  | nil => simp [GCodeBuffer.commandText, hb]
  | cons a t => simp [GCodeBuffer.commandText, hb, List.takeWhile]

/-- Witness for claim C6 at a concrete executing buffer. -/
theorem setFinished_true_idles_and_clears_witness :
    (GCodeBuffer.SetFinished ⟨[71, 49, 0], 1, 2, 0, false, false, BufState.executing, none, 0⟩ true).state
      = BufState.idle ∧
    (GCodeBuffer.SetFinished ⟨[71, 49, 0], 1, 2, 0, false, false, BufState.executing, none, 0⟩ true).commandText
      = [] :=
  setFinished_true_idles_and_clears
    ⟨[71, 49, 0], 1, 2, 0, false, false, BufState.executing, none, 0⟩ (by decide)

/-- Claim C7: `Pause` moves an Executing buffer to Paused and `Resume` moves
a Paused buffer back to Executing; both leave the buffer contents and the
read cursor (indeed every other field) unchanged. -/
theorem pause_resume_transitions (gb gc : GCodeBuffer)
    (hg : gb.state = BufState.executing) (hc : gc.state = BufState.paused) :
    gb.Pause = { gb with state := BufState.paused } ∧
    gc.Resume = { gc with state := BufState.executing } := by
  constructor
  · simp [GCodeBuffer.Pause, hg]
  · simp [GCodeBuffer.Resume, hc]

/-- Witness for claim C7 at concrete executing and paused buffers. -/
theorem pause_resume_transitions_witness :
    GCodeBuffer.Pause ⟨[71, 49, 0], 1, 2, 1, false, false, BufState.executing, none, 0⟩
      = ⟨[71, 49, 0], 1, 2, 1, false, false, BufState.paused, none, 0⟩ ∧
    GCodeBuffer.Resume ⟨[77, 49, 0], 2, 2, 1, false, true, BufState.paused, none, 0⟩
      = ⟨[77, 49, 0], 2, 2, 1, false, true, BufState.executing, none, 0⟩ :=
  pause_resume_transitions
    ⟨[71, 49, 0], 1, 2, 1, false, false, BufState.executing, none, 0⟩
    ⟨[77, 49, 0], 2, 2, 1, false, true, BufState.paused, none, 0⟩
    (by decide) (by decide)

/-- Claim C9: `SetFinished` with argument false leaves the buffer entirely
unchanged, in every state: the source's else branch assigns only to the
local parameter.  In particular it does not move the buffer to Executing. -/
theorem setFinished_false_noop (gb : GCodeBuffer) :
    gb.SetFinished false = gb := by
  simp [GCodeBuffer.SetFinished]

/-- Claim C10: `Pause` on a buffer that is not Executing and `Resume` on a
buffer that is not Paused leave the buffer completely unchanged, and both
operations are idempotent. -/
theorem pause_resume_frame (gb gc : GCodeBuffer)
    (hg : gb.state ≠ BufState.executing) (hc : gc.state ≠ BufState.paused) :
    gb.Pause = gb ∧ gc.Resume = gc ∧
    (∀ g : GCodeBuffer, g.Pause.Pause = g.Pause) ∧
    (∀ g : GCodeBuffer, g.Resume.Resume = g.Resume) := by
  refine ⟨by simp [GCodeBuffer.Pause, hg], by simp [GCodeBuffer.Resume, hc], ?_, ?_⟩
  · intro g
    by_cases h : g.state = BufState.executing
    · simp [GCodeBuffer.Pause, h]
    · simp [GCodeBuffer.Pause, h]
  · intro g
    by_cases h : g.state = BufState.paused
    · simp [GCodeBuffer.Resume, h]
    · simp [GCodeBuffer.Resume, h]

/-- Witness for claim C10 at concrete idle buffers. -/
theorem pause_resume_frame_witness :
    GCodeBuffer.Pause ⟨[0], 1, 0, 0, false, false, BufState.idle, none, 0⟩
      = ⟨[0], 1, 0, 0, false, false, BufState.idle, none, 0⟩ ∧
    GCodeBuffer.Resume ⟨[0], 2, 0, 0, false, false, BufState.idle, none, 0⟩
      = ⟨[0], 2, 0, 0, false, false, BufState.idle, none, 0⟩ :=
  ⟨(pause_resume_frame ⟨[0], 1, 0, 0, false, false, BufState.idle, none, 0⟩
      ⟨[0], 2, 0, 0, false, false, BufState.idle, none, 0⟩ (by decide) (by decide)).1,
   (pause_resume_frame ⟨[0], 1, 0, 0, false, false, BufState.idle, none, 0⟩
      ⟨[0], 2, 0, 0, false, false, BufState.idle, none, 0⟩ (by decide) (by decide)).2.1⟩

/-! ## Print-progress query surface

`GCodes::PrintingAFile()` is inline in the header:
`return (FractionOfFilePrinted() >= 0.0);`.  The body of
`FractionOfFilePrinted` is not in the header; it is modelled from its
documented contract. -/

/-- Print-progress state of the interpreter: `fileBeingPrinted` is live with
a read position and a file length, or no file is being printed. -/
structure PrintProgress where
  fileBeingPrinted : Option (Nat × Nat)
deriving DecidableEq, Repr

/-- Modelled from the spec: the body of `GCodes::FractionOfFilePrinted` is
not in the header; its contract there reads "Returns the current file-based
progress or -1.0 if no file is being printed", and the spec's query surface
lists "fraction of current file printed (or a sentinel meaning nothing
printing)".  When a file is live the fraction is its read position over its
length. -/
def FractionOfFilePrinted (s : PrintProgress) : ℚ :=
  match s.fileBeingPrinted with
  | some (pos, len) => (pos : ℚ) / (len : ℚ)
  | none => -1

/-- Translated from GCodes.h: `PrintingAFile()` returns
`FractionOfFilePrinted() >= 0.0`. -/
def PrintingAFile (s : PrintProgress) : Bool :=
  decide (FractionOfFilePrinted s ≥ 0)

/-- Claim C8: `PrintingAFile` returns true exactly when
`FractionOfFilePrinted` is nonnegative, and with no file being printed
`FractionOfFilePrinted` returns the sentinel -1, so `PrintingAFile` returns
false. -/
theorem printingAFile_iff_fraction_nonneg (s t : PrintProgress)
    (ht : t.fileBeingPrinted = none) :
    (PrintingAFile s = true ↔ FractionOfFilePrinted s ≥ 0) ∧
    FractionOfFilePrinted t = -1 ∧ PrintingAFile t = false := by
  refine ⟨by simp [PrintingAFile], ?_, ?_⟩
  · simp [FractionOfFilePrinted, ht]
  · simp [PrintingAFile, FractionOfFilePrinted, ht]

/-- Witness for claim C8: a live file half printed, and no file at all. -/
theorem printingAFile_iff_fraction_nonneg_witness :
    (PrintingAFile ⟨some (50, 100)⟩ = true ↔ FractionOfFilePrinted ⟨some (50, 100)⟩ ≥ 0) ∧
    FractionOfFilePrinted ⟨none⟩ = -1 ∧ PrintingAFile ⟨none⟩ = false :=
  printingAFile_iff_fraction_nonneg ⟨some (50, 100)⟩ ⟨none⟩ rfl

/-! ## ModalStateStack: Push and Pop of the interpreter's modal state

The header declares `bool Push();` and `bool Pop();` together with the
parallel stack arrays `drivesRelativeStack`, `axesRelativeStack`,
`feedrateStack`, `extruderPositionStack`, `fileStack`,
`doingFileMacroStack` and the `int8_t stackPointer`, all bounded by
`#define STACK 5`.  The bodies are not in the header and are modelled from
the spec. -/

/-- One snapshot of the live modal state, mirroring the parallel stack
arrays of the header: feedrate, the two relative-mode flags, the
accumulated extruder positions, the open macro file handle and the
in-a-macro flag. -/
structure ModalState where
  feedrate : ℚ
  drivesRelative : Bool
  axesRelative : Bool
  extruderPositions : List ℚ
  fileHandle : Option Nat
  inMacroFile : Bool
deriving DecidableEq, Repr

/-- The stack component: the live modal state plus the saved frames.  The
frame saved at depth `d` is `frames[d]`; the top frame is the last entry,
and `frames.length` is the current depth (`stackPointer`). -/
structure StackState where
  live : ModalState
  frames : List ModalState
deriving DecidableEq, Repr

/-- Error kinds of the modal-state stack. -/
inductive StackError
  | stackOverflow
  | stackUnderflow
deriving DecidableEq, Repr

/-- Modelled from the spec: `GCodes::Push` "copies the live modal state into
a new frame at the current depth and increments depth; fails with
StackOverflow ... if depth would exceed 5".  On failure the state is
returned unchanged. -/
def Push (s : StackState) : Option StackError × StackState :=
  if s.frames.length ≥ STACK then
    (some StackError.stackOverflow, s)
  else
    (none, { s with frames := s.frames ++ [s.live] })

/-- Modelled from the spec: `GCodes::Pop` "fails with StackUnderflow if
depth is 0; otherwise restores the live modal state from the top frame and
decrements depth". -/
def Pop (s : StackState) : Option StackError × StackState :=
  match s.frames.getLast? with
  | none => (some StackError.stackUnderflow, s)
  | some fr => (none, { live := fr, frames := s.frames.dropLast })

/-- A feedrate change to the live modal state between a Push and a Pop. -/
def setFeedrate (s : StackState) (f : ℚ) : StackState :=
  { s with live := { s.live with feedrate := f } }

/-! ### Claim C2: bounded Push and Pop around macro execution -/

/-- Claim C2: from an empty stack five consecutive `Push` operations
succeed; a sixth fails with StackOverflow and returns the state unchanged
(live modal state and all five frames intact); `Pop` on the empty stack
fails with StackUnderflow; and a `Push` followed by a feedrate change
followed by `Pop` succeeds and restores exactly the feedrate saved by the
`Push`. -/
theorem modal_stack_push_pop (s : StackState) (h : s.frames = []) :
    (Push s).1 = none ∧
    (Push (Push s).2).1 = none ∧
    (Push (Push (Push s).2).2).1 = none ∧
    (Push (Push (Push (Push s).2).2).2).1 = none ∧
    (Push (Push (Push (Push (Push s).2).2).2).2).1 = none ∧
    Push (Push (Push (Push (Push (Push s).2).2).2).2).2
      = (some StackError.stackOverflow,
         (Push (Push (Push (Push (Push s).2).2).2).2).2) ∧
    Pop s = (some StackError.stackUnderflow, s) ∧
    ∀ f : ℚ,
      (Pop (setFeedrate (Push s).2 f)).1 = none ∧
      (Pop (setFeedrate (Push s).2 f)).2.live.feedrate = s.live.feedrate := by
  obtain ⟨live, frames⟩ := s
  simp only at h
  subst h
  refine ⟨rfl, rfl, rfl, rfl, rfl, rfl, rfl, ?_⟩
  intro f
  exact ⟨rfl, rfl⟩

/-- Witness for claim C2: `Pop` on a concrete empty stack underflows and
leaves the state unchanged. -/
theorem modal_stack_push_pop_witness :
    Pop ⟨⟨1, false, false, [0, 0], none, false⟩, []⟩
      = (some StackError.stackUnderflow,
         ⟨⟨1, false, false, [0, 0], none, false⟩, []⟩) :=
  (modal_stack_push_pop ⟨⟨1, false, false, [0, 0], none, false⟩, []⟩ rfl).2.2.2.2.2.2.1

/-! ## DeferredCommandQueue: the internal code queue

The header fixes `const unsigned int codeQueueLength = 8;` and declares the
`CodeQueueItem` node class (command text snapshot, source buffer, target
move index, singly-linked `next`) together with the interpreter's two lists
`internalCodeQueue` (active items, arrival order) and `releasedQueueItems`
(the free pool).  The queue operations themselves are not in the header and
are modelled from the spec.  The linked structure is represented by lists:
`active` in arrival order, and the free pool by its size `freeCount`. -/

def codeQueueLength : Nat := 8

/-- One queued item: the copied command text, the identity of the
originating buffer (`source`), and the move count at which it becomes
eligible (`moveToExecute`). -/
structure CodeQueueItem where
  command : List Nat
  source : Nat
  moveToExecute : Nat
deriving DecidableEq, Repr

/-- The deferred queue: active items in arrival order plus the number of
free-pool items.  Well-formed states satisfy
`active.length + freeCount = codeQueueLength`. -/
structure CodeQueue where
  active : List CodeQueueItem
  freeCount : Nat
deriving DecidableEq, Repr

/-- Error kind of the deferred queue. -/
inductive QueueError
  | queueFull
deriving DecidableEq, Repr

/-- Modelled from the spec: `Enqueue(item, targetMoveIndex)` "fails with
QueueFull if the free pool is exhausted (capacity 8); otherwise stores a
copy of the command text and the channel identity, appended to a
singly-linked active list in arrival order". -/
def Enqueue (q : CodeQueue) (cmd : List Nat) (src : Nat) (target : Nat) :
    Option QueueError × CodeQueue :=
  if q.freeCount = 0 then
    (some QueueError.queueFull, q)
  else
    (none, { active := q.active ++ [⟨cmd, src, target⟩], freeCount := q.freeCount - 1 })

/-- Scan of the active list: returns the pair of the due items
(target move index at most the completed count) and the remaining items,
each in their original order. -/
def scanDue : List CodeQueueItem → Nat → List CodeQueueItem × List CodeQueueItem
  | [], _ => ([], [])
  | it :: rest, c =>
    let p := scanDue rest c
    if it.moveToExecute ≤ c then (it :: p.1, p.2) else (p.1, it :: p.2)

/-- Modelled from the spec: `PollDue(completedMoveIndex)` "scans the active
list and, for every item whose targetMoveIndex ≤ completedMoveIndex,
returns it for execution and releases it back to the free pool; items are
returned in enqueue order and only once each". -/
def PollDue (q : CodeQueue) (completed : Nat) : List CodeQueueItem × CodeQueue :=
  ((scanDue q.active completed).1,
   { active := (scanDue q.active completed).2,
     freeCount := q.freeCount + (scanDue q.active completed).1.length })

/-- Modelled from the spec: `GCodes::MoveCompleted` is called once per
finished move and increments the completion counter. -/
def MoveCompleted (movesCompleted : Nat) : Nat :=
  movesCompleted + 1

/-- The due part of the scan is exactly the filter of the active list by
the due condition, in list order. -/
theorem scanDue_fst (l : List CodeQueueItem) (c : Nat) :
    (scanDue l c).1 = l.filter (fun it => it.moveToExecute ≤ c) := by
  induction l with
  | nil => rfl
  | cons it rest ih =>
    by_cases h : it.moveToExecute ≤ c
    · simp [scanDue, h, List.filter, ih]
    · simp [scanDue, h, List.filter, ih]

/-- The remainder of the scan is exactly the filter of the active list by
the not-yet-due condition, in list order. -/
theorem scanDue_snd (l : List CodeQueueItem) (c : Nat) :
    (scanDue l c).2 = l.filter (fun it => c < it.moveToExecute) := by
  induction l with
  | nil => rfl
  | cons it rest ih =>
    by_cases h : it.moveToExecute ≤ c
    · have h2 : ¬ c < it.moveToExecute := by omega
      simp [scanDue, h, h2, List.filter, ih]
    · have h2 : c < it.moveToExecute := by omega
      simp [scanDue, h, h2, List.filter, ih]

/-- Claim C1: `PollDue(completedMoveIndex)` returns exactly the active
items whose target move index is at most the completed count, in enqueue
order and each at most once (the returned list is the order-preserving
filter of the active list, hence a sublist of it), removes them from the
active list and releases each of them back to the free pool; and an item
enqueued (into an empty queue) with target equal to the current completion
counter plus 2 is not due after one `MoveCompleted` signal and is the
first item returned, exactly once, after a second. -/
theorem pollDue_returns_due_items (q : CodeQueue) (c : Nat) (cmd : List Nat) (src : Nat) :
    (PollDue q c).1 = q.active.filter (fun it => it.moveToExecute ≤ c) ∧
    (PollDue q c).1.Sublist q.active ∧
    (PollDue q c).2.active = q.active.filter (fun it => c < it.moveToExecute) ∧
    (PollDue q c).2.freeCount = q.freeCount + (PollDue q c).1.length ∧
    ((PollDue ((Enqueue ⟨[], codeQueueLength⟩ cmd src (c + 2)).2) (MoveCompleted c)).1
        = [] ∧
     (PollDue ((Enqueue ⟨[], codeQueueLength⟩ cmd src (c + 2)).2)
         (MoveCompleted (MoveCompleted c))).1 = [⟨cmd, src, c + 2⟩] ∧
     (PollDue ((Enqueue ⟨[], codeQueueLength⟩ cmd src (c + 2)).2)
         (MoveCompleted (MoveCompleted c))).2.active = []) := by
  refine ⟨scanDue_fst q.active c, ?_, scanDue_snd q.active c, rfl, ?_, ?_, ?_⟩
  · show (scanDue q.active c).1.Sublist q.active
    rw [scanDue_fst]
    exact List.filter_sublist q.active
  · have h : ¬ c + 2 ≤ c + 1 := by omega
    simp [Enqueue, PollDue, scanDue, MoveCompleted, codeQueueLength, h]
  · have h : c + 2 ≤ c + 1 + 1 := by omega
    simp [Enqueue, PollDue, scanDue, MoveCompleted, codeQueueLength, h]
  · have h : c + 2 ≤ c + 1 + 1 := by omega
    simp [Enqueue, PollDue, scanDue, MoveCompleted, codeQueueLength, h]

/-- Claim C4: the deferred queue holds at most 8 concurrently pending
items.  In a well-formed queue, `Enqueue` succeeds (appending the new item
in arrival order) while fewer than 8 items are pending; with 8 items
pending it fails with QueueFull and returns the queue unchanged; and once
`PollDue` has released at least one pending item, a further `Enqueue`
succeeds again. -/
theorem enqueue_capacity (q : CodeQueue) (cmd : List Nat) (src t : Nat)
    (hwf : q.active.length + q.freeCount = codeQueueLength) :
    (q.active.length < codeQueueLength →
       (Enqueue q cmd src t).1 = none ∧
       (Enqueue q cmd src t).2.active = q.active ++ [⟨cmd, src, t⟩]) ∧
    (q.active.length = codeQueueLength →
       Enqueue q cmd src t = (some QueueError.queueFull, q)) ∧
    (∀ c : Nat, (PollDue q c).1 ≠ [] →
       (Enqueue ((PollDue q c).2) cmd src t).1 = none) := by
  refine ⟨?_, ?_, ?_⟩
  · intro hlt
    have hwf8 : q.active.length + q.freeCount = 8 := hwf
    have hlt8 : q.active.length < 8 := hlt
    have hfc : q.freeCount ≠ 0 := by omega
    exact ⟨by simp [Enqueue, hfc], by simp [Enqueue, hfc]⟩
  · intro heq
    have hwf8 : q.active.length + q.freeCount = 8 := hwf
    have heq8 : q.active.length = 8 := heq
    have hfc : q.freeCount = 0 := by omega
    simp [Enqueue, hfc]
  · intro c hne
    have hlen : (scanDue q.active c).1.length ≠ 0 := by
      intro h0
      exact hne (List.length_eq_zero.mp h0)
    have hfc : (PollDue q c).2.freeCount ≠ 0 := by
      show q.freeCount + (scanDue q.active c).1.length ≠ 0
      omega
    simp [Enqueue, hfc]

/-- Witness for claim C4: a concrete full queue (8 pending items, empty
free pool) rejects a ninth enqueue with QueueFull and is left unchanged. -/
theorem enqueue_capacity_witness :
    Enqueue ⟨[⟨[77], 0, 1⟩, ⟨[77], 0, 2⟩, ⟨[77], 0, 3⟩, ⟨[77], 0, 4⟩,
              ⟨[77], 0, 5⟩, ⟨[77], 0, 6⟩, ⟨[77], 0, 7⟩, ⟨[77], 0, 8⟩], 0⟩ [71] 1 9
      = (some QueueError.queueFull,
         ⟨[⟨[77], 0, 1⟩, ⟨[77], 0, 2⟩, ⟨[77], 0, 3⟩, ⟨[77], 0, 4⟩,
           ⟨[77], 0, 5⟩, ⟨[77], 0, 6⟩, ⟨[77], 0, 7⟩, ⟨[77], 0, 8⟩], 0⟩) :=
  (enqueue_capacity
    ⟨[⟨[77], 0, 1⟩, ⟨[77], 0, 2⟩, ⟨[77], 0, 3⟩, ⟨[77], 0, 4⟩,
      ⟨[77], 0, 5⟩, ⟨[77], 0, 6⟩, ⟨[77], 0, 7⟩, ⟨[77], 0, 8⟩], 0⟩
    [71] 1 9 (by decide)).2.1 (by decide)

/-! ## Move handoff between the coordinator and the motion collaborator

The header holds `bool moveAvailable;` ("Have we seen a move G Code and set
it up?"), the buffer `float moveBuffer[DRIVES+1];` and
`bool ReadMove(float* m, EndstopChecks& ce);` called by the Move class.
The coordinator loop is not in the header; its handoff discipline is
modelled from the spec as a transition system with ghost counters of loads
and reads. -/

/-- One pending move: one target value per drive plus a feedrate, and the
end-stop check mask. -/
structure MoveRequest where
  coords : List ℚ
  endStopsToCheck : Nat
deriving DecidableEq, Repr

/-- Coordinator state for the move handoff: the ready flag `moveAvailable`,
the move buffer, and ghost counters of how many moves were ever loaded and
ever consumed. -/
structure CoordState where
  moveAvailable : Bool
  moveBuffer : Option MoveRequest
  movesLoaded : Nat
  movesRead : Nat
deriving DecidableEq, Repr

/-- Events of the handoff: the coordinator loading a prepared move, the
motion collaborator consuming it via `ReadMove`, and any other tick work. -/
inductive CoordEvent
  | loadMove (m : MoveRequest)
  | readMove
  | tick
deriving DecidableEq, Repr

/-- Initial coordinator state: no move pending. -/
def coordInit : CoordState :=
  { moveAvailable := false, moveBuffer := none, movesLoaded := 0, movesRead := 0 }

/-- Modelled from the spec: "the Coordinator will not load a new one
[MoveRequest] until the previous one is consumed" — a load while
`moveAvailable` is still set is refused; `ReadMove` consumes the pending
move and clears the flag; everything else leaves the handoff state
alone. -/
def coordStep : CoordState → CoordEvent → CoordState
  | s, CoordEvent.loadMove m =>
    if s.moveAvailable then s
    else { s with moveAvailable := true, moveBuffer := some m,
                  movesLoaded := s.movesLoaded + 1 }
  | s, CoordEvent.readMove =>
    if s.moveAvailable then
      { s with moveAvailable := false, movesRead := s.movesRead + 1 }
    else s
  | s, CoordEvent.tick => s

/-- States of the handoff reachable from the initial state. -/
inductive CoordReachable : CoordState → Prop
  | init : CoordReachable coordInit
  | step (s : CoordState) (e : CoordEvent) :
      CoordReachable s → CoordReachable (coordStep s e)

/-- Claim C5: in every reachable coordinator state at most one MoveRequest
is pending: the number of loaded moves never exceeds the number of consumed
moves by more than one, the `moveAvailable` flag is set exactly when one
move is unconsumed, and the coordinator refuses to load a new move while
the flag is still set. -/
theorem coordinator_single_pending (s : CoordState) (hr : CoordReachable s) :
    s.movesRead ≤ s.movesLoaded ∧
    s.movesLoaded ≤ s.movesRead + 1 ∧
    (s.moveAvailable = true ↔ s.movesLoaded = s.movesRead + 1) ∧
    ∀ m : MoveRequest, s.moveAvailable = true →
      coordStep s (CoordEvent.loadMove m) = s := by
  have hload : ∀ (t : CoordState) (m : MoveRequest), t.moveAvailable = true →
      coordStep t (CoordEvent.loadMove m) = t := by
    intro t m ht
    simp [coordStep, ht]
  have key : s.movesRead ≤ s.movesLoaded ∧ s.movesLoaded ≤ s.movesRead + 1 ∧
      (s.moveAvailable = true ↔ s.movesLoaded = s.movesRead + 1) := by
    induction hr with
    | init => simp [coordInit]
    | step t e ht ih =>
      obtain ⟨h1, h2, h3⟩ := ih
      cases e with
      | loadMove m =>
        cases hav : t.moveAvailable with
        | true => rw [hload t m hav]; exact ⟨h1, h2, h3⟩
        | false =>
          rw [hav] at h3
          simp only [Bool.false_eq_true, false_iff] at h3
          simp [coordStep, hav]
          omega
      | readMove =>
        cases hav : t.moveAvailable with
        | true =>
          rw [hav] at h3
          simp only [true_iff] at h3
          simp [coordStep, hav]
          omega
        | false =>
          have : coordStep t CoordEvent.readMove = t := by simp [coordStep, hav]
          rw [this]
          exact ⟨h1, h2, h3⟩
      | tick => exact ⟨h1, h2, h3⟩
  exact ⟨key.1, key.2.1, key.2.2, hload s⟩

/-- Witness for claim C5: the state after loading one move from the initial
state is reachable and satisfies the single-pending bound. -/
theorem coordinator_single_pending_witness :
    (coordStep coordInit (CoordEvent.loadMove ⟨[1], 0⟩)).movesLoaded
      ≤ (coordStep coordInit (CoordEvent.loadMove ⟨[1], 0⟩)).movesRead + 1 :=
  (coordinator_single_pending (coordStep coordInit (CoordEvent.loadMove ⟨[1], 0⟩))
    (CoordReachable.step coordInit (CoordEvent.loadMove ⟨[1], 0⟩) CoordReachable.init)).2.1

/-! ## Line framing and checksum validation

The header declares `int CheckSum();` ("Compute the checksum (if any) at
the end of the G Code") and the flag setter `SetCommsProperties` (inline:
`checksumRequired = (arg & 1);`).  The body of the line-admission logic is
not in the header; it is modelled from the spec's wire framing
(`N<sequence> <command text> *<checksum>`, checksum = running exclusive-or
of all preceding bytes) and its §4.1 contract: a carried checksum that
disagrees fails with ChecksumMismatch and triggers a resend request; with
the checksum-required flag set, a line lacking a valid checksum is
rejected outright.  Lines are lists of byte values; `*` is byte 42 and `N`
is byte 78. -/

/-- Decimal parse of the digit bytes of the checksum field. -/
def parseDigits : List Nat → Nat → Option Nat
  | [], acc => some acc
  | b :: rest, acc =>
    if 48 ≤ b ∧ b ≤ 57 then parseDigits rest (acc * 10 + (b - 48)) else none

/-- The value of a nonempty all-digit byte listing, read in decimal. -/
def parseChecksumBytes : List Nat → Option Nat
  | [] => none
  | b :: rest => parseDigits (b :: rest) 0

/-- Modelled from the spec: `GCodeBuffer::CheckSum` computes "a running
exclusive-or over all preceding bytes" of the line, i.e. over the bytes
before the `*`. -/
def CheckSum (line : List Nat) : Nat :=
  (line.takeWhile (fun b => b ≠ 42)).foldl Nat.xor 0

/-- The checksum carried by the line: present when the line contains a `*`
followed by a decimal number. -/
def checksumField (line : List Nat) : Option Nat :=
  if line.contains 42 then
    parseChecksumBytes ((line.dropWhile (fun b => b ≠ 42)).drop 1)
  else none

/-- Whether checksum validation applies, and against which value: the line
begins with a sequence number field (byte `N`) and ends with a parseable
`*<n>` field. -/
def checksumFrame (line : List Nat) : Option Nat :=
  if line.head? = some 78 then checksumField line else none

/-- Outcome of offering one complete line to the buffer. -/
inductive LineOutcome
  | accepted
  | rejected
deriving DecidableEq, Repr

/-- Modelled from the spec: admission of one complete line, returning the
outcome together with the number of resend requests issued to the
originating channel.  A framed line is accepted exactly when the carried
checksum agrees with the computed one, and a disagreement issues one
resend request; an unframed line is rejected outright exactly when the
channel's checksum-required flag is set. -/
def processLine (checksumRequired : Bool) (line : List Nat) : LineOutcome × Nat :=
  match checksumFrame line with
  | some n =>
    if CheckSum line = n then (LineOutcome.accepted, 0) else (LineOutcome.rejected, 1)
  | none =>
    if checksumRequired then (LineOutcome.rejected, 0) else (LineOutcome.accepted, 0)

/-- Counterexample to claim C3 as stated: the line `N3 G1 X10*58` carries
an incorrect checksum (the exclusive-or of the bytes before the `*` is 82,
not 58), and with the checksum-required flag clear it is rejected with one
resend request — not "accepted regardless of checksum correctness" as the
claim's final conjunct demands. -/
theorem checksum_flag_clear_counterexample :
    CheckSum [78, 51, 32, 71, 49, 32, 88, 49, 48, 42, 53, 56] = 82 ∧
    checksumFrame [78, 51, 32, 71, 49, 32, 88, 49, 48, 42, 53, 56] = some 58 ∧
    processLine false [78, 51, 32, 71, 49, 32, 88, 49, 48, 42, 53, 56]
      = (LineOutcome.rejected, 1) := by
  decide

/-- Claim C3 (amended): for every line of the form `N<seq> <text> *<n>`,
the buffer accepts the line iff `n` equals the running exclusive-or of the
bytes preceding the `*`, this regardless of the checksum-required flag; on
a mismatch the line is discarded with exactly one resend request to the
originating channel; a line lacking a valid checksum is rejected when the
flag is set (the flag being bit 0 of the `SetCommsProperties` argument)
and accepted when the flag is clear. -/
theorem checksum_validation (req : Bool) (line : List Nat) (n : Nat)
    (hframe : checksumFrame line = some n) :
    ((processLine req line).1 = LineOutcome.accepted ↔ CheckSum line = n) ∧
    (CheckSum line ≠ n → processLine req line = (LineOutcome.rejected, 1)) ∧
    (∀ l2 : List Nat, checksumFrame l2 = none →
       processLine true l2 = (LineOutcome.rejected, 0) ∧
       processLine false l2 = (LineOutcome.accepted, 0)) ∧
    (∀ (gb : GCodeBuffer) (arg : Nat),
       (gb.SetCommsProperties arg).checksumRequired = decide (arg % 2 = 1)) := by
  refine ⟨?_, ?_, ?_, ?_⟩
  · by_cases hcs : CheckSum line = n
    · simp [processLine, hframe, hcs]
    · simp [processLine, hframe, hcs]
  · intro hcs
    simp [processLine, hframe, hcs]
  · intro l2 h2
    exact ⟨by simp [processLine, h2], by simp [processLine, h2]⟩
  · intro gb arg
    rfl

/-- Witness for claim C3 at the line `N3 G1 X10*82`, whose carried checksum
82 is the correct exclusive-or. -/
theorem checksum_validation_witness :
    (processLine true [78, 51, 32, 71, 49, 32, 88, 49, 48, 42, 56, 50]).1
        = LineOutcome.accepted ↔
      CheckSum [78, 51, 32, 71, 49, 32, 88, 49, 48, 42, 56, 50] = 82 :=
  (checksum_validation true [78, 51, 32, 71, 49, 32, 88, 49, 48, 42, 56, 50] 82
    (by decide)).1
